import Mathlib

/-!
Shallow embedding of `safe/common/minimum_needs.py` (class `MinimumNeeds`).

Python values appearing in this module are modelled with the inductive type
`Value`: strings, integers, booleans, `None`, lists, plain `dict`s and
`collections.OrderedDict`s.  A Python `dict` literal is embedded as an
association list in the textual order of the literal; `OrderedDict` gets its
own constructor because `update_minimum_needs` compares the concrete runtime
type with `type(x) != dict`, which distinguishes the two.  Fallible Python
code (subscripting, iteration, attribute errors) is embedded with
`Except String`, the error string recording the Python exception raised.

The instance attribute `self.minimum_needs` is passed explicitly: read-only
methods take the current table as a `Value` argument, and the mutating
methods take and return the state (an `Option Value`, `none` standing for
the attribute being unset on a fresh instance).
-/

/-- A Python value, as used in `minimum_needs.py`. -/
inductive Value where
  | none : Value
  | bool : Bool → Value
  | int : Int → Value
  | str : String → Value
  | list : List Value → Value
  | dict : List (String × Value) → Value
  | odict : List (String × Value) → Value

/-- The runtime type of a value, as observed by Python `type(x)`. -/
inductive PyType where
  | tNone | tBool | tInt | tStr | tList | tDict | tODict
  deriving DecidableEq

/-- `type(x)` for the embedded values. -/
def pyType : Value → PyType
  | .none => .tNone
  | .bool _ => .tBool
  | .int _ => .tInt
  | .str _ => .tStr
  | .list _ => .tList
  | .dict _ => .tDict
  | .odict _ => .tODict

/-- Python truthiness: `bool(x)`, used by `if not minimum_needs` and
`if resource['Unit abbreviation']`. -/
def isTruthy : Value → Bool
  | .none => false
  | .bool b => b
  | .int n => n != 0
  | .str s => !s.isEmpty
  | .list xs => !xs.isEmpty
  | .dict kvs => !kvs.isEmpty
  | .odict kvs => !kvs.isEmpty

/-- First value bound to key `k` in an association list (Python dicts built in
this module never carry duplicate keys). -/
def lookupKV (kvs : List (String × Value)) (k : String) : Option Value :=
  (kvs.find? fun kv => kv.1 == k).map Prod.snd

/-- Python `d[k] = v` on a `dict`/`OrderedDict` association list: an existing
key keeps its position and gets the new value, a new key is appended. -/
def setItem (kvs : List (String × Value)) (k : String) (v : Value) :
    List (String × Value) :=
  match kvs with
  | [] => [(k, v)]
  | (k', v') :: rest =>
    if k' == k then (k', v) :: rest else (k', v') :: setItem rest k v

mutual
/-- Python `==`, structurally.  In this module equality is only ever applied
to scalar field values (resource names are strings per the docstrings), where
this agrees with Python; for nested dicts Python compares key sets
order-insensitively, a case no code path here reaches. -/
def pyEq : Value → Value → Bool
  | .none, .none => true
  | .bool a, .bool b => a == b
  | .bool a, .int b => (if a then (1 : Int) else 0) == b
  | .int a, .bool b => a == (if b then (1 : Int) else 0)
  | .int a, .int b => a == b
  | .str a, .str b => a == b
  | .list a, .list b => pyEqList a b
  | .dict a, .dict b => pyEqKV a b
  | .odict a, .odict b => pyEqKV a b
  | .dict a, .odict b => pyEqKV a b
  | .odict a, .dict b => pyEqKV a b
  | _, _ => false

def pyEqList : List Value → List Value → Bool
  | [], [] => true
  | a :: as', b :: bs => pyEq a b && pyEqList as' bs
  | _, _ => false

def pyEqKV : List (String × Value) → List (String × Value) → Bool
  | [], [] => true
  | (ka, va) :: as', (kb, vb) :: bs => ka == kb && pyEq va vb && pyEqKV as' bs
  | _, _ => false
end

mutual
/-- Python `str(x)`, used by the `'%s [%s]'` formatting in
`get_minimum_needs`.  Exact for `None`, booleans, integers and strings — the
only cases that formatting reaches in this module (unit abbreviations are
strings); container cases follow Python's repr shape with string escaping
omitted. -/
def pyStr : Value → String
  | .str s => s
  | v => pyRepr v

def pyRepr : Value → String
  | .none => "None"
  | .bool b => if b then "True" else "False"
  | .int n => toString n
  | .str s => "'" ++ s ++ "'"
  | .list xs => "[" ++ String.intercalate ", " (pyReprList xs) ++ "]"
  | .dict kvs => "\x7b" ++ String.intercalate ", " (pyReprKV kvs) ++ "\x7d"
  | .odict kvs =>
    "OrderedDict([" ++ String.intercalate ", " (pyReprKV kvs) ++ "])"

def pyReprList : List Value → List String
  | [] => []
  | v :: rest => pyRepr v :: pyReprList rest

def pyReprKV : List (String × Value) → List String
  | [] => []
  | (k, v) :: rest => ("'" ++ k ++ "': " ++ pyRepr v) :: pyReprKV rest
end

/-- Python subscripting `container[key]` for the shapes this module uses:
dict lookup with a string key (`KeyError` when absent), and the `TypeError`s
raised when the container is a string, list or scalar. -/
def pyGetItem : Value → Value → Except String Value
  | .dict kvs, .str k | .odict kvs, .str k =>
    match lookupKV kvs k with
    | some v => .ok v
    | Option.none => .error ("KeyError: " ++ k)
  | .str _, _ => .error "TypeError: string indices must be integers"
  | .list _, .str _ => .error "TypeError: list indices must be integers, not str"
  | _, _ => .error "TypeError: object is not subscriptable"

/-- Python `for x in container`: a dict or OrderedDict yields its keys in
order, a list its elements, a string its one-character strings; scalars raise
`TypeError`. -/
def pyIterate : Value → Except String (List Value)
  | .dict kvs | .odict kvs => .ok (kvs.map fun kv => Value.str kv.1)
  | .list xs => .ok xs
  | .str s => .ok (s.toList.map fun c => Value.str (String.mk [c]))
  | _ => .error "TypeError: object is not iterable"

/-! ### The methods of `MinimumNeeds` -/

/-- Loop body of `MinimumNeeds.get_need`: `for need in ...` over the already
materialised items, `if need['name'] == resource: return need`, falling
through to `return None`. -/
def get_needGo (resource : Value) : List Value → Except String (Option Value)
  | [] => .ok Option.none
  | need :: rest =>
    match pyGetItem need (.str "name") with
    | .error e => .error e
    | .ok v =>
      if pyEq v resource then .ok (some need) else get_needGo resource rest

/-- `MinimumNeeds.get_need(resource)`: iterates `self.minimum_needs` itself
(not `self.minimum_needs['resources']`) and subscripts each item with the
key `'name'`. -/
def get_need (minimum_needs resource : Value) : Except String (Option Value) :=
  match pyIterate minimum_needs with
  | .error e => .error e
  | .ok items => get_needGo resource items

/-- Loop body of `MinimumNeeds.get_minimum_needs`, accumulating the
`OrderedDict` entries: for each resource record, look up
`'Unit abbreviation'`, build the display name (translating
`'Resource name'` and appending `' [<abbreviation>]'` when the abbreviation
is truthy, via `'%s [%s]' %` formatting), look up `'Default'`, and assign
`minimum_needs[name] = amount`. -/
def buildNeeds (tr : String → String) :
    List Value → List (String × Value) → Except String (List (String × Value))
  | [], acc => .ok acc
  | r :: rest, acc =>
    match pyGetItem r (.str "Unit abbreviation") with
    | .error e => .error e
    | .ok abbr =>
      match pyGetItem r (.str "Resource name") with
      | .error e => .error e
      | .ok (.str rname) =>
        let name :=
          if isTruthy abbr then tr rname ++ " [" ++ pyStr abbr ++ "]"
          else tr rname
        match pyGetItem r (.str "Default") with
        | .error e => .error e
        | .ok amount => buildNeeds tr rest (setItem acc name amount)
      | .ok _ => .error "TypeError: translation expects a string"

/-- `MinimumNeeds.get_minimum_needs()`: iterates
`self.minimum_needs['resources']` building an `OrderedDict` of display
name to `Default` amount.  The final `OrderedDict(minimum_needs)` of the
source copies the entries of an `OrderedDict`, which is the identity on the
embedded value.  The translation function `tr` (`safe.common.utilities
.ugettext`, external to this module) is passed explicitly. -/
def get_minimum_needs (tr : String → String) (minimum_needs : Value) :
    Except String Value :=
  match pyGetItem minimum_needs (.str "resources") with
  | .error e => .error e
  | .ok rs =>
    match pyIterate rs with
    | .error e => .error e
    | .ok items =>
      match buildNeeds tr items [] with
      | .error e => .error e
      | .ok entries => .ok (.odict entries)

/-- `MinimumNeeds.get_full_needs()`: returns `self.minimum_needs` itself
(`AttributeError` when the attribute was never set). -/
def get_full_needs : Option Value → Except String Value
  | some v => .ok v
  | Option.none => .error "AttributeError: minimum_needs"

/-- The record literal appended by `MinimumNeeds.set_need`, in the field
order of the source. -/
def newNeedRecord (resource amount units frequency : Value) : Value :=
  .dict [("Resource name", resource), ("Default", amount),
         ("Unit abbreviation", units), ("Frequency", frequency)]

/-- `MinimumNeeds.set_need(resource, amount, units, frequency)`:
`self.minimum_needs['resources'].append({...})`.  The in-place `append` on
the list bound to `'resources'` is embedded as rebuilding the table with
that entry's list extended. -/
def set_need (minimum_needs resource amount units frequency : Value) :
    Except String Value :=
  match pyGetItem minimum_needs (.str "resources") with
  | .error e => .error e
  | .ok (.list xs) =>
    let appended :=
      Value.list (xs ++ [newNeedRecord resource amount units frequency])
    match minimum_needs with
    | .dict kvs => .ok (.dict (setItem kvs "resources" appended))
    | .odict kvs => .ok (.odict (setItem kvs "resources" appended))
    | _ => .error "unreachable: subscripting succeeded on a non-dict"
  | .ok _ => .error "AttributeError: object has no attribute append"

/-- `set_need` with the `frequency='weekly'` default argument omitted. -/
def set_need3 (minimum_needs resource amount units : Value) :
    Except String Value :=
  set_need minimum_needs resource amount units (.str "weekly")

/-- `MinimumNeeds.update_minimum_needs(minimum_needs)`: rejects any value
whose runtime type is not exactly `dict` (`type(minimum_needs) != dict`)
with status `-1`, leaving the state alone; otherwise stores the value and
returns `0`. -/
def update_minimum_needs (st : Option Value) (v : Value) : Int × Option Value :=
  if pyType v ≠ PyType.tDict then (-1, st) else (0, some v)

/-! ### Filesystem and `json` model

`json.dumps`/`json.loads`, `os.path.exists` and `os.path.dirname` are
standard-library collaborators of this module, not code of the repository.
They are modelled by contract: a file's content is either a serialized
value or unparseable text, the filesystem is a finite set of directories
and files, and `dirname` is an abstract function passed to `write_to_file`.
-/

/-- The content of a file: either the serialization of a value (anything
`json.dumps` produced) or text that `json.loads` rejects. -/
inductive FileContent where
  | json : Value → FileContent
  | raw : String → FileContent

/-- Modelled from the spec: `json.loads`, recovering the serialized value or
failing (`ValueError`, which `read_from_file` catches) on unparseable text. -/
def loads : FileContent → Option Value
  | .json v => some v
  | .raw _ => Option.none

/-- A filesystem: the directories that exist, and the files with their
contents. -/
structure FS where
  dirs : List String
  files : List (String × FileContent)

/-- `os.path.exists`: true for an existing directory or file. -/
def fsExists (fs : FS) (p : String) : Bool :=
  fs.dirs.contains p || fs.files.any fun f => f.1 == p

/-- Reading an existing file's content (`none` when `p` is no file). -/
def fsRead (fs : FS) (p : String) : Option FileContent :=
  (fs.files.find? fun f => f.1 == p).map Prod.snd

/-- `open(p, 'w')` followed by a full write: replace the content of an
existing file in place, or create the file. -/
def upsertFile : List (String × FileContent) → String → FileContent →
    List (String × FileContent)
  | [], p, c => [(p, c)]
  | (q, d) :: rest, p, c =>
    if q == p then (q, c) :: rest else (q, d) :: upsertFile rest p c

/-- The filesystem after writing content `c` to path `p`. -/
def fsWrite (fs : FS) (p : String) (c : FileContent) : FS :=
  ⟨fs.dirs, upsertFile fs.files p c⟩

/-- `MinimumNeeds.read_from_file(filename)`: missing path gives `-1`; the
content is read and parsed, a parse failure (caught `TypeError`/`ValueError`)
leaves `None`; a falsy parse result gives `-1`; otherwise the parsed value is
handed to `update_minimum_needs`.  Opening a path that exists only as a
directory raises `IOError`, which the source does not catch. -/
def read_from_file (st : Option Value) (fs : FS) (filename : String) :
    Except String (Int × Option Value) :=
  if fsExists fs filename = false then .ok (-1, st)
  else
    match fsRead fs filename with
    | Option.none => .error "IOError: is a directory"
    | some content =>
      match loads content with
      | Option.none => .ok (-1, st)
      | some v =>
        if isTruthy v then .ok (update_minimum_needs st v) else .ok (-1, st)

/-- `MinimumNeeds.write_to_file(filename)`: when `dirname(filename)` does not
exist the method returns `-1` without touching the filesystem; otherwise it
serializes `self.minimum_needs` into the file and falls off the end,
returning Python `None` (embedded as `Option.none`).  Writing over a path
that exists as a directory raises `IOError`, uncaught. -/
def write_to_file (dirname : String → String) (st : Value) (fs : FS)
    (filename : String) : Except String (Option Int × FS) :=
  if fsExists fs (dirname filename) = false then .ok (some (-1), fs)
  else if fs.dirs.contains filename then .error "IOError: is a directory"
  else .ok (Option.none, fsWrite fs filename (FileContent.json st))

/-! ### The default table -/

/-- The `"Readable sentence"` template, an identical string literal repeated
in each of the five records of `MinimumNeeds._defaults` (braces of the
`\x7b\x7b Field \x7d\x7d` placeholders written as escapes). -/
def readableSentence : String :=
  "A displaced person should be provided with \x7b\x7b Default \x7d\x7d " ++
  "\x7b\x7b Unit \x7d\x7d/\x7b\x7b Units \x7d\x7d/" ++
  "\x7b\x7b Unit abbreviation \x7d\x7d of \x7b\x7b Resource name \x7d\x7d. " ++
  "Though no less than \x7b\x7b Minimum allowed \x7d\x7d and no " ++
  "more than \x7b\x7b Maximum allowed \x7d\x7d. This should be " ++
  "provided \x7b\x7b Frequency \x7d\x7d."

/-- `MinimumNeeds._defaults()`: the hardcoded default table, with the five
resource names passed through the translation function `tr` exactly as the
source does, fields in the textual order of the source's dict literals. -/
def _defaults (tr : String → String) : Value :=
  .dict [
    ("resources", .list [
      .dict [
        ("Default", .str "2.8"),
        ("Minimum allowed", .str "0"),
        ("Maximum allowed", .str "100"),
        ("Frequency", .str "weekly"),
        ("Resource name", .str (tr "Rice")),
        ("Resource description", .str "Basic food"),
        ("Unit", .str "kilogram"),
        ("Units", .str "kilograms"),
        ("Unit abbreviation", .str "kg"),
        ("Readable sentence", .str readableSentence)],
      .dict [
        ("Default", .str "17.5"),
        ("Minimum allowed", .str "0"),
        ("Maximum allowed", .str "100"),
        ("Frequency", .str "weekly"),
        ("Resource name", .str (tr "Drinking Water")),
        ("Resource description", .str "For drinking"),
        ("Unit", .str "litre"),
        ("Units", .str "litres"),
        ("Unit abbreviation", .str "l"),
        ("Readable sentence", .str readableSentence)],
      .dict [
        ("Default", .str "67"),
        ("Minimum allowed", .str "10"),
        ("Maximum allowed", .str "100"),
        ("Frequency", .str "weekly"),
        ("Resource name", .str (tr "Clean Water")),
        ("Resource description", .str "For washing"),
        ("Unit", .str "litre"),
        ("Units", .str "litres"),
        ("Unit abbreviation", .str "l"),
        ("Readable sentence", .str readableSentence)],
      .dict [
        ("Default", .str "0.2"),
        ("Minimum allowed", .str "0.1"),
        ("Maximum allowed", .str "1"),
        ("Frequency", .str "weekly"),
        ("Resource name", .str (tr "Family Kits")),
        ("Resource description", .str "Hygiene kits"),
        ("Unit", .str ""),
        ("Units", .str ""),
        ("Unit abbreviation", .str ""),
        ("Readable sentence", .str readableSentence)],
      .dict [
        ("Default", .str "0.05"),
        ("Minimum allowed", .str "0.02"),
        ("Maximum allowed", .str "1"),
        ("Frequency", .str "single"),
        ("Resource name", .str (tr "Toilets")),
        ("Resource description", .str ""),
        ("Unit", .str ""),
        ("Units", .str ""),
        ("Unit abbreviation", .str ""),
        ("Readable sentence", .str readableSentence)]]),
    ("provenance", .str "The minimum needs are based on Perka 7/2008."),
    ("profile", .str "BNPB_en")]

/-- A second definition for refinement comparison, following the spec's
words rather than the source: "for each resource in table order, builds a
display key by translating Resource name and, if Unit abbreviation is
non-empty, appending it in the form <translated name> [<abbreviation>];
value is the Default amount", with ordered-map assignment so that "if two
resources translate to the same display key, the later one silently
overwrites the earlier".  Each resource is given by its
`(Resource name, Unit abbreviation, Default)` field triple. -/
def specNeedsView (tr : String → String) :
    List (String × String × Value) → List (String × Value) →
    List (String × Value)
  | [], acc => acc
  | (nm, abbr, d) :: rest, acc =>
    specNeedsView tr rest
      (setItem acc
        (if abbr ≠ "" then tr nm ++ " [" ++ abbr ++ "]" else tr nm) d)

/-! ### Helper lemmas about the filesystem model -/

theorem fsRead_some_fsExists (fs : FS) (p : String) (c : FileContent)
    (h : fsRead fs p = some c) : fsExists fs p = true := by
  unfold fsRead at h
  unfold fsExists
  rcases Option.map_eq_some'.mp h with ⟨f, hf, _⟩
  have hmem := List.mem_of_find?_eq_some hf
  have hp := List.find?_some hf
  simp only [Bool.or_eq_true, List.any_eq_true]
  exact Or.inr ⟨f, hmem, hp⟩

theorem fsRead_fsWrite (fs : FS) (p : String) (c : FileContent) :
    fsRead (fsWrite fs p c) p = some c := by
  cases fs with
  | mk dirs files =>
    simp only [fsRead, fsWrite]
    induction files with
    | nil => simp [upsertFile]
    | cons f rest ih =>
      cases f with
      | mk q d =>
        by_cases hq : q = p
        · subst hq
          simp [upsertFile]
        · have hbq : (q == p) = false := beq_eq_false_iff_ne.mpr hq
          simp only [upsertFile, hbq, Bool.false_eq_true, if_false]
          rw [List.find?_cons_of_neg]
          · exact ih
          · simp [hbq]

theorem read_notFound (st : Option Value) (fs : FS) (p : String)
    (h : fsExists fs p = false) : read_from_file st fs p = .ok (-1, st) := by
  simp [read_from_file, h]

theorem read_parseError (st : Option Value) (fs : FS) (p : String) (s : String)
    (h : fsRead fs p = some (.raw s)) :
    read_from_file st fs p = .ok (-1, st) := by
  have hex := fsRead_some_fsExists _ _ _ h
  simp [read_from_file, hex, h, loads]

theorem read_falsy (st : Option Value) (fs : FS) (p : String) (v : Value)
    (h : fsRead fs p = some (.json v)) (hf : isTruthy v = false) :
    read_from_file st fs p = .ok (-1, st) := by
  have hex := fsRead_some_fsExists _ _ _ h
  simp [read_from_file, hex, h, loads, hf]

theorem read_truthy (st : Option Value) (fs : FS) (p : String) (v : Value)
    (h : fsRead fs p = some (.json v)) (ht : isTruthy v = true) :
    read_from_file st fs p = .ok (update_minimum_needs st v) := by
  have hex := fsRead_some_fsExists _ _ _ h
  simp [read_from_file, hex, h, loads, ht]

/-! ### Helper lemmas relating the source loop to the spec's view -/

theorem specKey_eq (tr : String → String) (nm abbr : String) :
    (if isTruthy (.str abbr) then tr nm ++ " [" ++ pyStr (.str abbr) ++ "]"
      else tr nm)
    = (if abbr ≠ "" then tr nm ++ " [" ++ abbr ++ "]" else tr nm) := by
  have hee : ("" : String).isEmpty = true := rfl
  by_cases he : abbr = ""
  · subst he
    simp [isTruthy, pyStr, hee]
  · have hf' : abbr.isEmpty = false := by
      rw [Bool.eq_false_iff]
      intro hh
      exact he ((String.isEmpty_iff abbr).mp hh)
    simp [isTruthy, pyStr, hf', he]

theorem buildNeeds_spec (tr : String → String) (rs : List Value)
    (fields : List (String × String × Value))
    (h : List.Forall₂ (fun r f =>
      pyGetItem r (.str "Unit abbreviation") = .ok (.str f.2.1) ∧
      pyGetItem r (.str "Resource name") = .ok (.str f.1) ∧
      pyGetItem r (.str "Default") = .ok f.2.2) rs fields) :
    ∀ acc, buildNeeds tr rs acc = .ok (specNeedsView tr fields acc) := by
  induction h with
  | nil =>
    intro acc
    simp [buildNeeds, specNeedsView]
  | @cons r f rs' fields' hf htail ih =>
    intro acc
    obtain ⟨nm, abbr, d⟩ := f
    obtain ⟨habbr, hnm, hd⟩ := hf
    simp only [buildNeeds, habbr, hnm, hd, specNeedsView]
    rw [ih, specKey_eq]

/-! ### The claims -/

/-- Claim C1: the claim states that `get_need(name)` scans the table's
`resources` sequence in order and returns the first record whose
`Resource name` field equals the input.  The code instead iterates
`self.minimum_needs` itself — on a needs table (a dict) that yields the key
strings `"resources"`, `"provenance"`, `"profile"` — and subscripts each
with `'name'`, so for every translation function and every requested
resource the call on the default table raises
`TypeError: string indices must be integers` and never returns a record. -/
theorem get_need_defaults_raises_type_error :
    ∀ (tr : String → String) (resource : Value),
    get_need (_defaults tr) resource
      = .error "TypeError: string indices must be integers" := by
  intro tr r
  rfl

/-- Claim C2: for every value of runtime type exactly `dict`,
`update_minimum_needs` returns the success status `0`, and a subsequent
`get_full_needs()` returns exactly that value (the source stores and returns
the same reference; object identity itself is beyond the value embedding,
which proves the stored table is the given one). -/
theorem update_minimum_needs_stores_table (st : Option Value) (v : Value)
    (h : pyType v = PyType.tDict) :
    update_minimum_needs st v = (0, some v) ∧
    get_full_needs (update_minimum_needs st v).2 = .ok v := by
  simp [update_minimum_needs, h, get_full_needs]

theorem update_minimum_needs_stores_table_witness :
    pyType (Value.dict [("resources", Value.list [])]) = PyType.tDict ∧
    (update_minimum_needs Option.none (Value.dict [("resources", Value.list [])])
        = (0, some (Value.dict [("resources", Value.list [])])) ∧
      get_full_needs (update_minimum_needs Option.none
          (Value.dict [("resources", Value.list [])])).2
        = .ok (Value.dict [("resources", Value.list [])])) :=
  ⟨rfl, update_minimum_needs_stores_table Option.none
    (Value.dict [("resources", Value.list [])]) rfl⟩

/-- Claim C3: for every value whose runtime type is not `dict` (a list, a
string, a number, ...), `update_minimum_needs` returns the failure status
`-1` and leaves the previously held table unchanged. -/
theorem update_minimum_needs_rejects_non_dict (st : Option Value) (x : Value)
    (h : pyType x ≠ PyType.tDict) :
    update_minimum_needs st x = (-1, st) := by
  simp [update_minimum_needs, h]

theorem update_minimum_needs_rejects_non_dict_witness :
    pyType (Value.list []) ≠ PyType.tDict ∧
    update_minimum_needs (some (Value.dict [])) (Value.list [])
      = (-1, some (Value.dict [])) :=
  ⟨by decide,
   update_minimum_needs_rejects_non_dict (some (Value.dict [])) (Value.list [])
    (by decide)⟩

/-- Claim C4: `read_from_file` returns `-1` with the table untouched when
the path does not exist, when the file content does not parse, and when the
content parses to a falsy value; on a successful truthy parse it returns
whatever `update_minimum_needs` returns on the parsed value. -/
theorem read_from_file_error_paths (st : Option Value) (fs : FS) (p : String) :
    (fsExists fs p = false → read_from_file st fs p = .ok (-1, st)) ∧
    (∀ s, fsRead fs p = some (.raw s) →
      read_from_file st fs p = .ok (-1, st)) ∧
    (∀ v, fsRead fs p = some (.json v) → isTruthy v = false →
      read_from_file st fs p = .ok (-1, st)) ∧
    (∀ v, fsRead fs p = some (.json v) → isTruthy v = true →
      read_from_file st fs p = .ok (update_minimum_needs st v)) :=
  ⟨read_notFound st fs p,
   fun s h => read_parseError st fs p s h,
   fun v h hf => read_falsy st fs p v h hf,
   fun v h ht => read_truthy st fs p v h ht⟩

theorem read_from_file_error_paths_witness :
    read_from_file Option.none ⟨[], []⟩ "needs.json"
      = .ok (-1, Option.none) ∧
    read_from_file Option.none ⟨[], [("needs.json", .raw "not json")]⟩
      "needs.json" = .ok (-1, Option.none) ∧
    read_from_file Option.none ⟨[], [("needs.json", .json (.dict []))]⟩
      "needs.json" = .ok (-1, Option.none) ∧
    read_from_file Option.none
      ⟨[], [("needs.json", .json (.dict [("profile", .str "BNPB_en")]))]⟩
      "needs.json"
      = .ok (update_minimum_needs Option.none
          (.dict [("profile", .str "BNPB_en")])) :=
  ⟨(read_from_file_error_paths Option.none ⟨[], []⟩ "needs.json").1 rfl,
   (read_from_file_error_paths Option.none
      ⟨[], [("needs.json", .raw "not json")]⟩ "needs.json").2.1
      "not json" rfl,
   (read_from_file_error_paths Option.none
      ⟨[], [("needs.json", .json (.dict []))]⟩ "needs.json").2.2.1
      (.dict []) rfl rfl,
   (read_from_file_error_paths Option.none
      ⟨[], [("needs.json", .json (.dict [("profile", .str "BNPB_en")]))]⟩
      "needs.json").2.2.2
      (.dict [("profile", .str "BNPB_en")]) rfl rfl⟩

/-- Claim C5: for every path whose parent directory does not exist,
`write_to_file` returns the failure status `-1` and leaves the filesystem
exactly as it was, creating no file. -/
theorem write_to_file_missing_dirname (dirname : String → String) (st : Value)
    (fs : FS) (p : String) (h : fsExists fs (dirname p) = false) :
    write_to_file dirname st fs p = .ok (some (-1), fs) := by
  simp [write_to_file, h]

theorem write_to_file_missing_dirname_witness :
    fsExists ⟨[], []⟩ "missing" = false ∧
    write_to_file (fun _ => "missing") (Value.dict []) ⟨[], []⟩ "missing/f"
      = .ok (some (-1), (⟨[], []⟩ : FS)) :=
  ⟨rfl, write_to_file_missing_dirname (fun _ => "missing") (Value.dict [])
    ⟨[], []⟩ "missing/f" rfl⟩

/-- Claim C6: round trip of the default table.  When the parent directory of
`p` exists (and `p` is not itself a directory), `write_to_file` on an
instance holding the `_defaults` table succeeds (Python `None` return) and
writes the serialized table, and `read_from_file(p)` on a fresh instance
returns status `0` with a table equal to the original — same resources,
same field values, same order. -/
theorem defaults_write_read_roundtrip (tr dirname : String → String) (fs : FS)
    (p : String) (h1 : fsExists fs (dirname p) = true)
    (h2 : fs.dirs.contains p = false) :
    write_to_file dirname (_defaults tr) fs p
      = .ok (Option.none, fsWrite fs p (FileContent.json (_defaults tr))) ∧
    read_from_file Option.none
        (fsWrite fs p (FileContent.json (_defaults tr))) p
      = .ok (0, some (_defaults tr)) := by
  constructor
  · simp at h2
    simp [write_to_file, h1, h2]
  · have hr := fsRead_fsWrite fs p (FileContent.json (_defaults tr))
    have hrt := read_truthy Option.none
      (fsWrite fs p (FileContent.json (_defaults tr))) p (_defaults tr) hr rfl
    rw [hrt]
    rfl

theorem defaults_write_read_roundtrip_witness :
    fsExists ⟨["home"], []⟩ "home" = true ∧
    (FS.mk ["home"] []).dirs.contains "needs.json" = false ∧
    (write_to_file (fun _ => "home") (_defaults id) ⟨["home"], []⟩ "needs.json"
        = .ok (Option.none, fsWrite ⟨["home"], []⟩ "needs.json"
            (FileContent.json (_defaults id))) ∧
      read_from_file Option.none
          (fsWrite ⟨["home"], []⟩ "needs.json"
            (FileContent.json (_defaults id))) "needs.json"
        = .ok (0, some (_defaults id))) :=
  ⟨rfl, rfl, defaults_write_read_roundtrip id (fun _ => "home") ⟨["home"], []⟩
    "needs.json" rfl rfl⟩

/-- Claim C7: for every table with a `resources` field, `get_minimum_needs`
returns the ordered mapping obtained by iterating the resources in table
order — each key the translated `Resource name` with `' [<abbreviation>]'`
appended when the `Unit abbreviation` is non-empty, mapped to the `Default`
amount, duplicate display keys silently colliding with the later value
winning (stated as refinement of `specNeedsView`, the spec-side view, over
every table whose records carry the three fields the loop reads — on any
other record the source raises).  On the default table the five entries
come out in the `_defaults` order with first key `<translated Rice> [kg]`
mapped to `"2.8"`.  Because `_defaults` stores already-translated names
which `get_minimum_needs` translates again, the default-table part is
stated under the hypothesis that the translation is idempotent on the five
stored names (true of `ugettext`: a translated string is not itself a
catalog key), together with the implicit hypothesis that the five display
keys are pairwise distinct.  The last conjunct exhibits last-write-wins on
every two-record duplicate-name family. -/
theorem get_minimum_needs_defaults_view (tr : String → String)
    (hi1 : tr (tr "Rice") = tr "Rice")
    (hi2 : tr (tr "Drinking Water") = tr "Drinking Water")
    (hi3 : tr (tr "Clean Water") = tr "Clean Water")
    (hi4 : tr (tr "Family Kits") = tr "Family Kits")
    (hi5 : tr (tr "Toilets") = tr "Toilets")
    (h : List.Pairwise (· ≠ ·)
      [tr "Rice" ++ " [kg]", tr "Drinking Water" ++ " [l]",
       tr "Clean Water" ++ " [l]", tr "Family Kits", tr "Toilets"]) :
    (∀ (table : Value) (rs : List Value)
        (fields : List (String × String × Value)),
      pyGetItem table (.str "resources") = .ok (.list rs) →
      List.Forall₂ (fun r f =>
        pyGetItem r (.str "Unit abbreviation") = .ok (.str f.2.1) ∧
        pyGetItem r (.str "Resource name") = .ok (.str f.1) ∧
        pyGetItem r (.str "Default") = .ok f.2.2) rs fields →
      get_minimum_needs tr table
        = .ok (.odict (specNeedsView tr fields []))) ∧
    get_minimum_needs tr (_defaults tr) = .ok (.odict [
      (tr "Rice" ++ " [kg]", .str "2.8"),
      (tr "Drinking Water" ++ " [l]", .str "17.5"),
      (tr "Clean Water" ++ " [l]", .str "67"),
      (tr "Family Kits", .str "0.2"),
      (tr "Toilets", .str "0.05")]) ∧
    ∀ (nm : String) (d1 d2 : Value),
      get_minimum_needs tr (.dict [("resources", .list [
        .dict [("Resource name", .str nm), ("Default", d1),
               ("Unit abbreviation", .str "")],
        .dict [("Resource name", .str nm), ("Default", d2),
               ("Unit abbreviation", .str "")]])])
      = .ok (.odict [(tr nm, d2)]) := by
  refine ⟨?_, ?_, ?_⟩
  · intro table rs fields hrs hfa
    simp only [get_minimum_needs, hrs, pyIterate]
    rw [buildNeeds_spec tr rs fields hfa]
  · simp only [List.pairwise_cons, List.mem_cons, List.mem_singleton,
      List.not_mem_nil, forall_eq_or_imp, forall_eq] at h
    obtain ⟨⟨h12, h13, h14, h15, -⟩, ⟨h23, h24, h25, -⟩, ⟨h34, h35, -⟩,
      ⟨h45, -⟩, -⟩ := h
    have hekg : ("kg" : String).isEmpty = false := rfl
    have hel : ("l" : String).isEmpty = false := rfl
    have hee : ("" : String).isEmpty = true := rfl
    simp [get_minimum_needs, _defaults, buildNeeds, setItem, pyGetItem,
      pyIterate, lookupKV, isTruthy, pyStr, hekg, hel, hee,
      String.append_assoc, hi1, hi2, hi3, hi4, hi5,
      h12, h13, h14, h15, h23, h24, h25, h34, h35, h45]
  · intro nm d1 d2
    have hee : ("" : String).isEmpty = true := rfl
    simp [get_minimum_needs, buildNeeds, setItem, pyGetItem, lookupKV,
      isTruthy, pyIterate, hee]

theorem get_minimum_needs_defaults_view_witness :
    (id (id "Rice") = id "Rice" ∧
      List.Pairwise (· ≠ ·)
        [id "Rice" ++ " [kg]", id "Drinking Water" ++ " [l]",
         id "Clean Water" ++ " [l]", id "Family Kits", id "Toilets"]) ∧
    get_minimum_needs id (.dict [("resources", .list [
        .dict [("Resource name", .str "Water"),
               ("Unit abbreviation", .str "l"),
               ("Default", .str "10")]]), ("profile", .str "x")])
      = .ok (.odict [("Water [l]", .str "10")]) ∧
    get_minimum_needs id (_defaults id) = .ok (.odict [
      (id "Rice" ++ " [kg]", .str "2.8"),
      (id "Drinking Water" ++ " [l]", .str "17.5"),
      (id "Clean Water" ++ " [l]", .str "67"),
      (id "Family Kits", .str "0.2"),
      (id "Toilets", .str "0.05")]) :=
  ⟨⟨rfl, by decide⟩,
   (get_minimum_needs_defaults_view id rfl rfl rfl rfl rfl (by decide)).1
     (.dict [("resources", .list [
        .dict [("Resource name", .str "Water"),
               ("Unit abbreviation", .str "l"),
               ("Default", .str "10")]]), ("profile", .str "x")])
     [.dict [("Resource name", .str "Water"),
             ("Unit abbreviation", .str "l"),
             ("Default", .str "10")]]
     [("Water", "l", .str "10")] rfl
     (List.Forall₂.cons ⟨rfl, rfl, rfl⟩ List.Forall₂.nil),
   (get_minimum_needs_defaults_view id rfl rfl rfl rfl rfl (by decide)).2.1⟩

/-- Claim C8: `set_need(resource, amount, units, frequency)` on a table with
a `resources` list appends exactly one record with the four fields
`Resource name`, `Default`, `Unit abbreviation`, `Frequency` (defaulting to
`"weekly"` when omitted); the list grows by exactly one, with no validation
of the amount and no deduplication — the equation holds for every prior
list, including one already containing the same name. -/
theorem set_need_appends_record (kvs : List (String × Value)) (rs : List Value)
    (resource amount units frequency : Value)
    (h : lookupKV kvs "resources" = some (.list rs)) :
    set_need (.dict kvs) resource amount units frequency
      = .ok (.dict (setItem kvs "resources"
          (.list (rs ++ [newNeedRecord resource amount units frequency])))) ∧
    (rs ++ [newNeedRecord resource amount units frequency]).length
      = rs.length + 1 ∧
    set_need3 (.dict kvs) resource amount units
      = set_need (.dict kvs) resource amount units (.str "weekly") := by
  refine ⟨?_, by simp, rfl⟩
  simp [set_need, pyGetItem, h]

theorem set_need_appends_record_witness :
    lookupKV [("resources", Value.list [])] "resources"
      = some (.list []) ∧
    (set_need (.dict [("resources", Value.list [])]) (.str "Blankets")
        (.int 2) (.str "pieces") (.str "weekly")
      = .ok (.dict (setItem [("resources", Value.list [])] "resources"
          (.list ([] ++ [newNeedRecord (.str "Blankets") (.int 2)
            (.str "pieces") (.str "weekly")])))) ∧
      (([] : List Value) ++ [newNeedRecord (.str "Blankets") (.int 2)
        (.str "pieces") (.str "weekly")]).length
        = ([] : List Value).length + 1 ∧
      set_need3 (.dict [("resources", Value.list [])]) (.str "Blankets")
          (.int 2) (.str "pieces")
        = set_need (.dict [("resources", Value.list [])]) (.str "Blankets")
            (.int 2) (.str "pieces") (.str "weekly")) :=
  ⟨rfl, set_need_appends_record [("resources", Value.list [])] []
    (.str "Blankets") (.int 2) (.str "pieces") (.str "weekly") rfl⟩

/-- Claim C9 (implicit): `update_minimum_needs` compares the runtime type
exactly (`type(x) != dict`), so any `OrderedDict` — in particular any value
`get_minimum_needs` can return — is rejected with `-1` even though it is a
mapping. -/
theorem update_rejects_ordered_dict :
    (∀ (st : Option Value) (entries : List (String × Value)),
      update_minimum_needs st (.odict entries) = (-1, st)) ∧
    (∀ (tr : String → String) (st : Value) (st' : Option Value) (m : Value),
      get_minimum_needs tr st = .ok m →
      update_minimum_needs st' m = (-1, st')) := by
  constructor
  · intro st entries
    simp [update_minimum_needs, pyType]
  · intro tr st st' m h
    unfold get_minimum_needs at h
    cases hm : pyGetItem st (.str "resources") with
    | error e => simp [hm] at h
    | ok rs =>
      simp only [hm] at h
      cases hi : pyIterate rs with
      | error e => simp [hi] at h
      | ok items =>
        simp only [hi] at h
        cases hb : buildNeeds tr items [] with
        | error e => simp [hb] at h
        | ok entries =>
          simp only [hb, Except.ok.injEq] at h
          rw [← h]
          simp [update_minimum_needs, pyType]

theorem update_rejects_ordered_dict_witness :
    get_minimum_needs id (.dict [("resources", .list [])])
      = .ok (.odict []) ∧
    update_minimum_needs (some (.dict [])) (.odict [])
      = (-1, some (.dict [])) :=
  ⟨rfl, update_rejects_ordered_dict.2 id (.dict [("resources", .list [])])
    (some (.dict [])) (.odict []) rfl⟩

/-- Claim C10 (implicit): the empty record is treated inconsistently by the
two update paths — `update_minimum_needs` on the empty dict succeeds with
`0` and installs it, while `read_from_file` on a file whose content parses
to the empty dict (a falsy value) fails with `-1` and leaves the table
unchanged. -/
theorem empty_table_two_paths (st : Option Value) (fs : FS) (p : String) :
    update_minimum_needs st (.dict []) = (0, some (.dict [])) ∧
    (fsRead fs p = some (.json (.dict [])) →
      read_from_file st fs p = .ok (-1, st)) :=
  ⟨rfl, fun h => read_falsy st fs p (.dict []) h rfl⟩

theorem empty_table_two_paths_witness :
    update_minimum_needs Option.none (.dict []) = (0, some (.dict [])) ∧
    read_from_file Option.none ⟨[], [("f.json", .json (.dict []))]⟩ "f.json"
      = .ok (-1, Option.none) :=
  ⟨(empty_table_two_paths Option.none ⟨[], []⟩ "f.json").1,
   (empty_table_two_paths Option.none
      ⟨[], [("f.json", .json (.dict []))]⟩ "f.json").2 rfl⟩
